import Mathlib

/-!
Shallow embedding of the WeatherDataIngestor Lambda
(src/WeatherDataIngestor.py) and verification of its specification.

Modelling conventions:
  - Python dicts holding the raw provider response are modelled by the
    `RawObservation` structure, every field optional where its absence in
    the dict would be observable (a direct subscript access that would
    raise `KeyError` becomes an `Except.error`).
  - The flat output record built by `transform_weather_data` is modelled
    as an ordered association list `List (String × JValue)`: dict
    insertion order is the append order of the code, and presence of a
    key, absence of a key, and a key mapped to `None`/null are all
    distinguishable, exactly as in the serialized JSON.
  - Python floats are modelled as exact rationals; `round(x, 2)` is
    round-half-to-even at two decimals, as in Python.
  - Exception messages (KeyError, IndexError) are modelled by short
    strings naming the missing key; the handler only ever embeds them
    verbatim into its error body, so only their identity matters.
  - Effects of `lambda_handler` (secret lookup, HTTP fetch, JSON parse,
    Firehose publish) are inputs of the model (`HandlerEnv`), and the
    result records which effects were attempted.
-/

/-- A JSON scalar value as it appears in the transformed record:
a string, a number (Python float modelled as a rational), an integer,
or null (Python `None`). -/
inductive JValue where
  | s (v : String)
  | n (v : ℚ)
  | i (v : ℤ)
  | null
deriving DecidableEq, Repr

/-- The `main` section of the provider response. The code subscripts all
six keys directly, so each is optional here and the transform fails when
one is missing. -/
structure RawMain where
  temp : Option ℚ
  feels_like : Option ℚ
  temp_min : Option ℚ
  temp_max : Option ℚ
  humidity : Option ℚ
  pressure : Option ℚ
deriving DecidableEq, Repr

/-- The `wind` section; the code reads both keys with `.get`, which
yields `None` rather than raising when a key is missing. -/
structure RawWind where
  speed : Option ℚ
  deg : Option ℚ
deriving DecidableEq, Repr

/-- The `sys` section: `country` is subscripted directly, while
`sunrise` and `sunset` are tested with `in` before use. -/
structure RawSys where
  country : Option String
  sunrise : Option ℤ
  sunset : Option ℤ
deriving DecidableEq, Repr

/-- One element of the `weather` array. -/
structure RawWeatherItem where
  main : Option String
  description : Option String
deriving DecidableEq, Repr

/-- The raw provider JSON response (RawObservation of the spec). -/
structure RawObservation where
  name : Option String
  sys : Option RawSys
  weather : Option (List RawWeatherItem)
  main : Option RawMain
  wind : Option RawWind
deriving DecidableEq, Repr

/-- Round-half-to-even to an integer, the semantics of Python `round`
on an exact value. -/
def roundHalfEven (q : ℚ) : ℤ :=
  let f := Int.floor q
  let frac := q - f
  if frac < 1/2 then f
  else if 1/2 < frac then f + 1
  else if f % 2 = 0 then f else f + 1

/-- Python `round(q, 2)`: round-half-to-even at two decimal places. -/
def round2 (q : ℚ) : ℚ := (roundHalfEven (q * 100) : ℚ) / 100

/-- `kelvin_to_celsius` from the source: `round(kelvin - 273.15, 2)`. -/
def kelvin_to_celsius (kelvin : ℚ) : ℚ := round2 (kelvin - 273.15)

/-- Days-to-civil-date conversion (proleptic Gregorian), the date part of
Python `datetime.utcfromtimestamp`: given days since the Unix epoch,
return (year, month, day). -/
def civilFromDays (z0 : ℤ) : ℤ × ℤ × ℤ :=
  let z := z0 + 719468
  let era : ℤ := Int.fdiv z 146097
  let doe : ℤ := z - era * 146097
  let yoe : ℤ := Int.fdiv (doe - Int.fdiv doe 1460 + Int.fdiv doe 36524 - Int.fdiv doe 146096) 365
  let y : ℤ := yoe + era * 400
  let doy : ℤ := doe - (365 * yoe + Int.fdiv yoe 4 - Int.fdiv yoe 100)
  let mp : ℤ := Int.fdiv (5 * doy + 2) 153
  let d : ℤ := doy - Int.fdiv (153 * mp + 2) 5 + 1
  let m : ℤ := mp + (if mp < 10 then 3 else -9)
  (y + (if m ≤ 2 then 1 else 0), m, d)

/-- Zero-pad a nonnegative integer to two digits. -/
def pad2 (n : ℤ) : String :=
  if n < 10 then "0" ++ toString n else toString n

/-- Zero-pad a nonnegative integer to four digits (strftime `%Y`). -/
def pad4 (n : ℤ) : String :=
  if n < 10 then "000" ++ toString n
  else if n < 100 then "00" ++ toString n
  else if n < 1000 then "0" ++ toString n
  else toString n

/-- `datetime.utcfromtimestamp(t).strftime(m)` for the format string used
by the source: renders a Unix timestamp as `YYYY-MM-DD HH:MM:SS UTC`
interpreting it in UTC. -/
def fmtTimestamp (t : ℤ) : String :=
  let days := Int.fdiv t 86400
  let s := t - days * 86400
  let c := civilFromDays days
  pad4 c.1 ++ "-" ++ pad2 c.2.1 ++ "-" ++ pad2 c.2.2 ++ " " ++
    pad2 (Int.fdiv s 3600) ++ ":" ++ pad2 (Int.fdiv s 60 % 60) ++ ":" ++ pad2 (s % 60) ++ " UTC"

/-- Lookup of a key in the ordered record (dict access on the output). -/
def getField : List (String × JValue) → String → Option JValue
  | [], _ => none
  | (k, v) :: rest, key => if k = key then some v else getField rest key

/-- The five always-present fields, in the insertion order of the code. -/
def baseFields (ts : ℤ) (name country cond desc : String) : List (String × JValue) :=
  [("city", JValue.s name),
   ("country", JValue.s country),
   ("weather_condition", JValue.s cond),
   ("weather_description", JValue.s desc),
   ("event_timestamp", JValue.i ts)]

/-- The `main`-section group of fields: the code subscripts all six keys
directly inside `if main in data`, so a missing sub-key raises. -/
def optionalMain : Option RawMain → Except String (List (String × JValue))
  | none => Except.ok []
  | some m =>
    match m.temp with
    | none => Except.error "KeyError: temp"
    | some t =>
    match m.feels_like with
    | none => Except.error "KeyError: feels_like"
    | some fl =>
    match m.temp_min with
    | none => Except.error "KeyError: temp_min"
    | some tmin =>
    match m.temp_max with
    | none => Except.error "KeyError: temp_max"
    | some tmax =>
    match m.humidity with
    | none => Except.error "KeyError: humidity"
    | some hum =>
    match m.pressure with
    | none => Except.error "KeyError: pressure"
    | some pres =>
      Except.ok
        [("temperature_celsius", JValue.n (kelvin_to_celsius t)),
         ("feels_like_celsius", JValue.n (kelvin_to_celsius fl)),
         ("temp_min_celsius", JValue.n (kelvin_to_celsius tmin)),
         ("temp_max_celsius", JValue.n (kelvin_to_celsius tmax)),
         ("humidity_percent", JValue.n hum),
         ("pressure_hpa", JValue.n pres)]

/-- `dict.get` semantics of the wind sub-fields: a missing sub-key
becomes JSON null, a present one copies through. -/
def optNum : Option ℚ → JValue
  | none => JValue.null
  | some v => JValue.n v

/-- The wind group, emitted whenever the `wind` section is present. -/
def windFields (w : RawWind) : List (String × JValue) :=
  [("wind_speed_ms", optNum w.speed),
   ("wind_direction_degrees", optNum w.deg)]

/-- The sunrise/sunset group, emitted only when `sys` holds both keys. -/
def sunFields (sys : RawSys) : List (String × JValue) :=
  match sys.sunrise, sys.sunset with
  | some a, some b =>
    [("sunrise", JValue.s (fmtTimestamp a)),
     ("sunset", JValue.s (fmtTimestamp b))]
  | _, _ => []

/-- `transform_weather_data` from the source: builds the flat record.
`ts` is the Unix-epoch value of `int(datetime.utcnow().timestamp())`,
injected since it is the single impure input. Field extraction follows
the evaluation order of the Python dict literal, so the error raised on
a malformed observation is the first failing access. -/
def transform_weather_data (ts : ℤ) (data : RawObservation) : Except String (List (String × JValue)) :=
  match data.name with
  | none => Except.error "KeyError: name"
  | some name =>
  match data.sys with
  | none => Except.error "KeyError: sys"
  | some sys =>
  match sys.country with
  | none => Except.error "KeyError: country"
  | some country =>
  match data.weather with
  | none => Except.error "KeyError: weather"
  | some [] => Except.error "IndexError: list index out of range"
  | some (w0 :: _) =>
  match w0.main with
  | none => Except.error "KeyError: main"
  | some cond =>
  match w0.description with
  | none => Except.error "KeyError: description"
  | some desc =>
  match optionalMain data.main with
  | Except.error e => Except.error e
  | Except.ok mf =>
    Except.ok (baseFields ts name country cond desc ++ mf ++
      (match data.wind with | none => [] | some w => windFields w) ++ sunFields sys)

/-- Python truthiness of an optional string (`None` and `""` are falsy),
used by `event.get(city) or DEFAULT_CITY or random.choice(...)` and by
`if not api_key`. -/
def truthyOpt : Option String → Bool
  | none => false
  | some s => !(s == "")

/-- The module constant `DEFAULT_CITY = os.environ.get("DEFAULT_CITY", "London")`
as a function of the raw environment value. -/
def DEFAULT_CITY (env : Option String) : String := env.getD "London"

/-- The fixed fallback city list `RANDOM_CITIES` of the source. -/
def RANDOM_CITIES : List String :=
  ["London", "New York", "Paris", "Berlin", "Tokyo", "Sydney", "Cairo", "Toronto", "Istanbul"]

/-- City resolution, line 101 of the source:
`city = event.get("city") or DEFAULT_CITY or random.choice(RANDOM_CITIES)`.
`random.choice` draws an index uniformly from the list; the drawn index
`pick` is an input of the model. -/
def resolveCity (eventCity : Option String) (defaultCityEnv : Option String)
    (pick : Fin RANDOM_CITIES.length) : String :=
  if truthyOpt eventCity then eventCity.getD ""
  else if DEFAULT_CITY defaultCityEnv ≠ "" then DEFAULT_CITY defaultCityEnv
  else RANDOM_CITIES.get pick

/-- Outcome of `json.loads` on the secret string followed by
`secret_dict.get("OpenWeatherMapApiKey")`:
either the string is not JSON (`JSONDecodeError`, caught by the inner
handler), or it parses to a dict whose key lookup yields an optional
value, or it parses to a non-dict value, in which case `.get` raises
`AttributeError`, caught only by the outer handler. -/
inductive SecretParse where
  | notJson
  | jsonDict (key : Option String)
  | jsonOther
deriving DecidableEq, Repr

/-- `get_api_key` from the source. `secretName` is `SECRET_NAME`
(`None` or `""` are both falsy), `lookupResult` the outcome of the
Secrets Manager call (`Except.error` = the call raised), `parse` the
`json.loads` outcome per secret string, and `envApiKey` the value of
`os.environ.get("OpenWeatherMapApiKey")`. Every exception path returns
the environment fallback; the function never raises. -/
def get_api_key (secretName : Option String) (lookupResult : Except String String)
    (parse : String → SecretParse) (envApiKey : Option String) : Option String :=
  if truthyOpt secretName = false then envApiKey
  else
    match lookupResult with
    | Except.error _ => envApiKey
    | Except.ok secret =>
      match parse secret with
      | SecretParse.notJson => some secret
      | SecretParse.jsonDict k => k
      | SecretParse.jsonOther => envApiKey

/-- A response body as built by the handler: either
`json.dumps({error: msg})` or the success payload
`json.dumps({message, city, recordId})`, modelled structurally. -/
inductive Body where
  | err (msg : String)
  | success (message city recordId : String)
deriving DecidableEq, Repr

/-- The handler result: the returned status code and body, together with
which external effects the invocation attempted. -/
structure HandlerResult where
  statusCode : ℕ
  body : Body
  fetchAttempted : Bool
  parseAttempted : Bool
  transformAttempted : Bool
  publishAttempted : Bool
deriving DecidableEq, Repr

/-- All inputs of one `lambda_handler` invocation: the trigger event
city, the environment, the drawn random index, the resolved API key
(output of `get_api_key`), the HTTP response, the outcome of
`json.loads` on its body, the wall-clock timestamp, and the outcome of
the Firehose `put_record` call (`Except.ok` = the assigned RecordId). -/
structure HandlerEnv where
  eventCity : Option String
  defaultCityEnv : Option String
  pick : Fin RANDOM_CITIES.length
  apiKey : Option String
  respStatus : ℕ
  respBody : String
  parseResult : Except String RawObservation
  now : ℤ
  firehoseResult : Except String String
deriving Repr

/-- The message of the `ValueError` raised when no API key resolves. -/
def configErrorMsg : String :=
  "No API key available. Set WEATHER_API_KEY environment variable or configure secret."

/-- Prefix the top-level handler prepends to every caught exception. -/
def boundaryMsg (m : String) : String := "Error processing weather data: " ++ m

/-- `lambda_handler` from the source: resolve the city, check the API
key (raising `ValueError` if falsy, caught by the single top-level
boundary as a 500), fetch, mirror a non-200 provider status verbatim
without parsing, otherwise parse, transform, publish to Firehose, and
convert any exception along the way into a 500 whose body embeds the
exception message. -/
def lambda_handler (env : HandlerEnv) : HandlerResult :=
  let city := resolveCity env.eventCity env.defaultCityEnv env.pick
  if truthyOpt env.apiKey = false then
    { statusCode := 500, body := Body.err (boundaryMsg configErrorMsg),
      fetchAttempted := false, parseAttempted := false,
      transformAttempted := false, publishAttempted := false }
  else if env.respStatus ≠ 200 then
    { statusCode := env.respStatus,
      body := Body.err ("Weather API error: Status " ++ toString env.respStatus ++
        ", Response: " ++ env.respBody),
      fetchAttempted := true, parseAttempted := false,
      transformAttempted := false, publishAttempted := false }
  else
    match env.parseResult with
    | Except.error m =>
      { statusCode := 500, body := Body.err (boundaryMsg m),
        fetchAttempted := true, parseAttempted := true,
        transformAttempted := false, publishAttempted := false }
    | Except.ok raw =>
      match transform_weather_data env.now raw with
      | Except.error m =>
        { statusCode := 500, body := Body.err (boundaryMsg m),
          fetchAttempted := true, parseAttempted := true,
          transformAttempted := true, publishAttempted := false }
      | Except.ok _ =>
        match env.firehoseResult with
        | Except.error m =>
          { statusCode := 500, body := Body.err (boundaryMsg m),
            fetchAttempted := true, parseAttempted := true,
            transformAttempted := true, publishAttempted := true }
        | Except.ok rid =>
          { statusCode := 200,
            body := Body.success "Weather data successfully sent to Firehose" city rid,
            fetchAttempted := true, parseAttempted := true,
            transformAttempted := true, publishAttempted := true }

/-- A fully populated observation: all sections present. -/
def fullSys : RawSys :=
  { country := some "GB", sunrise := some 1700000000, sunset := some 1700030000 }

/-- A complete raw observation used to instantiate the theorems. -/
def fullRaw : RawObservation :=
  { name := some "London", sys := some fullSys,
    weather := some [{ main := some "Clouds", description := some "overcast clouds" }],
    main := some { temp := some 300.15, feels_like := some 300.15, temp_min := some 299,
                   temp_max := some 301, humidity := some 70, pressure := some 1012 },
    wind := some { speed := some 4.1, deg := some 80 } }

/-- The record `transform_weather_data` produces for `fullRaw` at time 0. -/
def fullRec : List (String × JValue) :=
  baseFields 0 "London" "GB" "Clouds" "overcast clouds" ++
  [("temperature_celsius", JValue.n (kelvin_to_celsius 300.15)),
   ("feels_like_celsius", JValue.n (kelvin_to_celsius 300.15)),
   ("temp_min_celsius", JValue.n (kelvin_to_celsius 299)),
   ("temp_max_celsius", JValue.n (kelvin_to_celsius 301)),
   ("humidity_percent", JValue.n 70),
   ("pressure_hpa", JValue.n 1012)] ++
  windFields { speed := some 4.1, deg := some 80 } ++ sunFields fullSys

/-- An observation whose wind section is present but lacks `speed`. -/
def windMissingSpeedRaw : RawObservation :=
  { name := some "London",
    sys := some { country := some "GB", sunrise := none, sunset := none },
    weather := some [{ main := some "Clouds", description := some "overcast clouds" }],
    main := none,
    wind := some { speed := none, deg := some 200 } }

/-- The record produced for `windMissingSpeedRaw` at time 0. -/
def windMissingRec : List (String × JValue) :=
  baseFields 0 "London" "GB" "Clouds" "overcast clouds" ++ [] ++
  windFields { speed := none, deg := some 200 } ++
  sunFields { country := some "GB", sunrise := none, sunset := none }

/-- An observation with an empty weather array (malformed). -/
def malformedRaw : RawObservation :=
  { name := some "London",
    sys := some { country := some "GB", sunrise := none, sunset := none },
    weather := some [], main := none, wind := none }

/-- Invocation inputs for a provider that answers 404. -/
def env404 : HandlerEnv :=
  { eventCity := some "Paris", defaultCityEnv := none, pick := ⟨0, by decide⟩,
    apiKey := some "k", respStatus := 404, respBody := "city not found",
    parseResult := Except.error "Expecting value", now := 0,
    firehoseResult := Except.ok "rid-1" }

/-- Invocation inputs with no resolvable API key. -/
def envNoKey : HandlerEnv :=
  { eventCity := none, defaultCityEnv := none, pick := ⟨0, by decide⟩,
    apiKey := none, respStatus := 200, respBody := "",
    parseResult := Except.error "Expecting value", now := 0,
    firehoseResult := Except.ok "rid-1" }

/-- Invocation inputs whose provider body parses to `malformedRaw`. -/
def envMalformed : HandlerEnv :=
  { eventCity := none, defaultCityEnv := none, pick := ⟨0, by decide⟩,
    apiKey := some "k", respStatus := 200, respBody := "ok",
    parseResult := Except.ok malformedRaw, now := 0,
    firehoseResult := Except.ok "rid-1" }

/-- Invocation inputs whose Firehose publish call raises. -/
def envSinkFail : HandlerEnv :=
  { eventCity := none, defaultCityEnv := none, pick := ⟨0, by decide⟩,
    apiKey := some "k", respStatus := 200, respBody := "ok",
    parseResult := Except.ok windMissingSpeedRaw, now := 0,
    firehoseResult := Except.error "ServiceUnavailable" }

/-- Inversion of a successful transform: all required accesses succeeded
and the record is the concatenation of the four field groups. -/
theorem transform_ok_elim (ts : ℤ) (data : RawObservation) (rec : List (String × JValue))
    (h : transform_weather_data ts data = Except.ok rec) :
    ∃ name sys country w0 wrest cond desc mf,
      data.name = some name ∧ data.sys = some sys ∧ sys.country = some country ∧
      data.weather = some (w0 :: wrest) ∧ w0.main = some cond ∧ w0.description = some desc ∧
      optionalMain data.main = Except.ok mf ∧
      rec = baseFields ts name country cond desc ++ mf ++
        (match data.wind with | none => [] | some w => windFields w) ++ sunFields sys := by
  obtain ⟨oname, osys, oweather, omain, owind⟩ := data
  cases oname with
  | none => simp [transform_weather_data] at h
  | some name =>
  cases osys with
  | none => simp [transform_weather_data] at h
  | some sys =>
  cases hc : sys.country with
  | none => simp [transform_weather_data, hc] at h
  | some country =>
  cases oweather with
  | none => simp [transform_weather_data, hc] at h
  | some weather =>
  cases weather with
  | nil => simp [transform_weather_data, hc] at h
  | cons w0 wrest =>
  cases hm0 : w0.main with
  | none => simp [transform_weather_data, hc, hm0] at h
  | some cond =>
  cases hd0 : w0.description with
  | none => simp [transform_weather_data, hc, hm0, hd0] at h
  | some desc =>
  cases hmf : optionalMain omain with
  | error e => simp [transform_weather_data, hc, hm0, hd0, hmf] at h
  | ok mf =>
    refine ⟨name, sys, country, w0, wrest, cond, desc, mf, rfl, rfl, hc, rfl, hm0, hd0, rfl, ?_⟩
    simp [transform_weather_data, hc, hm0, hd0, hmf] at h
    simpa using h.symm

/-- Inversion of the main-metrics group: either the section is absent and
no field is emitted, or all six sub-fields were present and the six
converted fields are emitted. -/
theorem optionalMain_ok_elim (om : Option RawMain) (mf : List (String × JValue))
    (h : optionalMain om = Except.ok mf) :
    (om = none ∧ mf = []) ∨
    ∃ t fl tmin tmax hum pres,
      om = some { temp := some t, feels_like := some fl, temp_min := some tmin,
                  temp_max := some tmax, humidity := some hum, pressure := some pres } ∧
      mf = [("temperature_celsius", JValue.n (kelvin_to_celsius t)),
            ("feels_like_celsius", JValue.n (kelvin_to_celsius fl)),
            ("temp_min_celsius", JValue.n (kelvin_to_celsius tmin)),
            ("temp_max_celsius", JValue.n (kelvin_to_celsius tmax)),
            ("humidity_percent", JValue.n hum),
            ("pressure_hpa", JValue.n pres)] := by
  cases om with
  | none =>
    left
    exact ⟨rfl, by simpa [optionalMain] using h.symm⟩
  | some m =>
    right
    obtain ⟨ot, ofl, otmin, otmax, ohum, opres⟩ := m
    cases ot with
    | none => simp [optionalMain] at h
    | some t =>
    cases ofl with
    | none => simp [optionalMain] at h
    | some fl =>
    cases otmin with
    | none => simp [optionalMain] at h
    | some tmin =>
    cases otmax with
    | none => simp [optionalMain] at h
    | some tmax =>
    cases ohum with
    | none => simp [optionalMain] at h
    | some hum =>
    cases opres with
    | none => simp [optionalMain] at h
    | some pres =>
      refine ⟨t, fl, tmin, tmax, hum, pres, rfl, ?_⟩
      simpa [optionalMain] using h.symm

/-- Claim C1: for every RawObservation accepted by the transform, the
five required fields are always present, and each optional group
(main-metrics, wind, sunrise/sunset) is present in the output exactly
when the corresponding section of the input exists; an absent section
contributes no key at all, not even a null-valued one. -/
theorem C1_field_presence (ts : ℤ) (data : RawObservation) (rec : List (String × JValue))
    (h : transform_weather_data ts data = Except.ok rec) :
    (getField rec "city").isSome = true ∧
    (getField rec "country").isSome = true ∧
    (getField rec "weather_condition").isSome = true ∧
    (getField rec "weather_description").isSome = true ∧
    (getField rec "event_timestamp").isSome = true ∧
    ((getField rec "temperature_celsius").isSome = true ↔ data.main.isSome = true) ∧
    ((getField rec "feels_like_celsius").isSome = true ↔ data.main.isSome = true) ∧
    ((getField rec "temp_min_celsius").isSome = true ↔ data.main.isSome = true) ∧
    ((getField rec "temp_max_celsius").isSome = true ↔ data.main.isSome = true) ∧
    ((getField rec "humidity_percent").isSome = true ↔ data.main.isSome = true) ∧
    ((getField rec "pressure_hpa").isSome = true ↔ data.main.isSome = true) ∧
    ((getField rec "wind_speed_ms").isSome = true ↔ data.wind.isSome = true) ∧
    ((getField rec "wind_direction_degrees").isSome = true ↔ data.wind.isSome = true) ∧
    ((getField rec "sunrise").isSome = true ↔
      (∃ s, data.sys = some s ∧ s.sunrise.isSome = true ∧ s.sunset.isSome = true)) ∧
    ((getField rec "sunset").isSome = true ↔
      (∃ s, data.sys = some s ∧ s.sunrise.isSome = true ∧ s.sunset.isSome = true)) := by
  obtain ⟨name, sys, country, w0, wrest, cond, desc, mf, hn, hs, hc, hw, hm0, hd0, hmf, hrec⟩ :=
    transform_ok_elim ts data rec h
  subst hrec
  rcases optionalMain_ok_elim data.main mf hmf with ⟨hmn, hmf0⟩ |
    ⟨t, fl, tmin, tmax, hum, pres, hmn, hmf0⟩ <;>
  subst hmf0 <;>
  cases hwind : data.wind <;>
  cases hsr : sys.sunrise <;>
  cases hss : sys.sunset <;>
  simp [hn, hs, hmn, hwind, hsr, hss, baseFields, windFields, sunFields, getField, optNum]

/-- Witness for C1 at a fully populated observation. -/
theorem C1_field_presence_witness :
    (getField fullRec "city").isSome = true ∧
    ((getField fullRec "wind_speed_ms").isSome = true ↔ fullRaw.wind.isSome = true) ∧
    ((getField fullRec "sunrise").isSome = true ↔
      (∃ s, fullRaw.sys = some s ∧ s.sunrise.isSome = true ∧ s.sunset.isSome = true)) :=
  ⟨(C1_field_presence 0 fullRaw fullRec rfl).1,
   (C1_field_presence 0 fullRaw fullRec rfl).2.2.2.2.2.2.2.2.2.2.2.1,
   (C1_field_presence 0 fullRaw fullRec rfl).2.2.2.2.2.2.2.2.2.2.2.2.2.1⟩

/-- Claim C2: city resolution is a strict priority chain — a truthy
event city wins, else the configured default city (the environment value
with default London), else the city at the uniformly drawn index of the
fixed nine-city fallback list; an empty trigger input with the
DEFAULT_CITY variable unset resolves to London, which is one of the
nine fallback cities. -/
theorem C2_city_priority_chain (ec denv : Option String) (pick : Fin RANDOM_CITIES.length) :
    (∀ c, ec = some c → c ≠ "" → resolveCity ec denv pick = c) ∧
    (truthyOpt ec = false → DEFAULT_CITY denv ≠ "" → resolveCity ec denv pick = DEFAULT_CITY denv) ∧
    (truthyOpt ec = false → DEFAULT_CITY denv = "" →
      resolveCity ec denv pick = RANDOM_CITIES.get pick ∧ RANDOM_CITIES.get pick ∈ RANDOM_CITIES) ∧
    resolveCity none none pick ∈ RANDOM_CITIES := by
  refine ⟨?_, ?_, ?_, ?_⟩
  · rintro c rfl hc
    simp [resolveCity, truthyOpt, hc]
  · intro h1 h2
    simp [resolveCity, h1, h2]
  · intro h1 h2
    exact ⟨by simp [resolveCity, h1, h2], List.get_mem RANDOM_CITIES pick.1 pick.2⟩
  · simp [resolveCity, truthyOpt, DEFAULT_CITY, RANDOM_CITIES]

/-- Witness for C2: all four branches of the chain at concrete inputs. -/
theorem C2_city_priority_chain_witness :
    resolveCity (some "Paris") (some "London") ⟨2, by decide⟩ = "Paris" ∧
    resolveCity none (some "London") ⟨2, by decide⟩ = "London" ∧
    resolveCity none (some "") ⟨2, by decide⟩ = "Paris" ∧
    resolveCity none none ⟨2, by decide⟩ ∈ RANDOM_CITIES :=
  ⟨(C2_city_priority_chain (some "Paris") (some "London") ⟨2, by decide⟩).1 "Paris" rfl (by decide),
   (C2_city_priority_chain none (some "London") ⟨2, by decide⟩).2.1 (by decide) (by decide),
   ((C2_city_priority_chain none (some "") ⟨2, by decide⟩).2.2.1 (by decide) (by decide)).1,
   (C2_city_priority_chain none none ⟨2, by decide⟩).2.2.2⟩

/-- Counterexample to claim C3 as stated: for an observation whose wind
section is present but lacks the speed sub-field, the output does NOT
omit the wind_speed_ms field — the field is present and carries a JSON
null, because the code uses dict.get, which returns None. -/
theorem C3_counterexample :
    Except.map (fun r => getField r "wind_speed_ms") (transform_weather_data 0 windMissingSpeedRaw) =
      Except.ok (some JValue.null) ∧
    Except.map (fun r => getField r "wind_speed_ms") (transform_weather_data 0 windMissingSpeedRaw) ≠
      Except.ok none := by
  have h : Except.map (fun r => getField r "wind_speed_ms")
      (transform_weather_data 0 windMissingSpeedRaw) = Except.ok (some JValue.null) := rfl
  exact ⟨h, by rw [h]; simp⟩

/-- Claim C3 amended: when the wind section is present, both wind fields
are always emitted; a present sub-field copies through unmodified and a
missing sub-field yields the field with a null value (not an absent
field). -/
theorem C3_amended_wind_null (ts : ℤ) (data : RawObservation) (rec : List (String × JValue))
    (w : RawWind) (h : transform_weather_data ts data = Except.ok rec) (hw : data.wind = some w) :
    getField rec "wind_speed_ms" =
      some (match w.speed with | some v => JValue.n v | none => JValue.null) ∧
    getField rec "wind_direction_degrees" =
      some (match w.deg with | some v => JValue.n v | none => JValue.null) := by
  obtain ⟨name, sys, country, w0, wrest, cond, desc, mf, hn, hs, hc, hww, hm0, hd0, hmf, hrec⟩ :=
    transform_ok_elim ts data rec h
  subst hrec
  rcases optionalMain_ok_elim data.main mf hmf with ⟨hmn, hmf0⟩ |
    ⟨t, fl, tmin, tmax, hum, pres, hmn, hmf0⟩ <;>
  subst hmf0 <;>
  cases hsp : w.speed <;>
  cases hdg : w.deg <;>
  simp [hw, hsp, hdg, baseFields, windFields, sunFields, getField, optNum]

/-- Witness for the amended C3 at an observation missing wind speed. -/
theorem C3_amended_wind_null_witness :
    getField windMissingRec "wind_speed_ms" = some JValue.null ∧
    getField windMissingRec "wind_direction_degrees" = some (JValue.n 200) :=
  C3_amended_wind_null 0 windMissingSpeedRaw windMissingRec
    { speed := none, deg := some 200 } rfl rfl

/-- Claim C4: every temperature field of the output is
round(kelvin - 273.15, 2) applied to the matching Kelvin input;
300.15 K maps to 27 and 273.15 K to 0; humidity and pressure copy
through unmodified. -/
theorem C4_kelvin_conversion (ts : ℤ) (data : RawObservation) (rec : List (String × JValue))
    (t fl tmin tmax hum pres : ℚ)
    (h : transform_weather_data ts data = Except.ok rec)
    (hm : data.main = some { temp := some t, feels_like := some fl, temp_min := some tmin,
                             temp_max := some tmax, humidity := some hum, pressure := some pres }) :
    getField rec "temperature_celsius" = some (JValue.n (round2 (t - 273.15))) ∧
    getField rec "feels_like_celsius" = some (JValue.n (round2 (fl - 273.15))) ∧
    getField rec "temp_min_celsius" = some (JValue.n (round2 (tmin - 273.15))) ∧
    getField rec "temp_max_celsius" = some (JValue.n (round2 (tmax - 273.15))) ∧
    getField rec "humidity_percent" = some (JValue.n hum) ∧
    getField rec "pressure_hpa" = some (JValue.n pres) ∧
    kelvin_to_celsius 300.15 = 27 ∧ kelvin_to_celsius 273.15 = 0 := by
  obtain ⟨name, sys, country, w0, wrest, cond, desc, mf, hn, hs, hc, hww, hm0, hd0, hmf, hrec⟩ :=
    transform_ok_elim ts data rec h
  subst hrec
  rw [hm] at hmf
  simp [optionalMain] at hmf
  subst hmf
  refine ⟨?_, ?_, ?_, ?_, ?_, ?_,
    by norm_num [kelvin_to_celsius, round2, roundHalfEven],
    by norm_num [kelvin_to_celsius, round2, roundHalfEven]⟩ <;>
  simp [baseFields, getField, kelvin_to_celsius]

/-- Witness for C4 at a 300.15 K observation. -/
theorem C4_kelvin_conversion_witness :
    getField fullRec "temperature_celsius" = some (JValue.n (round2 (300.15 - 273.15))) ∧
    kelvin_to_celsius 300.15 = 27 ∧ kelvin_to_celsius 273.15 = 0 :=
  ⟨(C4_kelvin_conversion 0 fullRaw fullRec 300.15 300.15 299 301 70 1012 rfl rfl).1,
   (C4_kelvin_conversion 0 fullRaw fullRec 300.15 300.15 299 301 70 1012 rfl rfl).2.2.2.2.2.2.1,
   (C4_kelvin_conversion 0 fullRaw fullRec 300.15 300.15 299 301 70 1012 rfl rfl).2.2.2.2.2.2.2⟩

/-- Claim C5: sunrise/sunset output fields are present iff the sys
section holds both Unix timestamps, each formatted as
YYYY-MM-DD HH:MM:SS UTC in UTC; timestamp 1700000000 formats to
2023-11-14 22:13:20 UTC. -/
theorem C5_sunrise_sunset (ts : ℤ) (data : RawObservation) (rec : List (String × JValue))
    (sys : RawSys) (h : transform_weather_data ts data = Except.ok rec)
    (hs : data.sys = some sys) :
    (∀ a b, sys.sunrise = some a → sys.sunset = some b →
      getField rec "sunrise" = some (JValue.s (fmtTimestamp a)) ∧
      getField rec "sunset" = some (JValue.s (fmtTimestamp b))) ∧
    ((sys.sunrise = none ∨ sys.sunset = none) →
      getField rec "sunrise" = none ∧ getField rec "sunset" = none) ∧
    fmtTimestamp 1700000000 = "2023-11-14 22:13:20 UTC" := by
  obtain ⟨name, sys0, country, w0, wrest, cond, desc, mf, hn, hs0, hc, hww, hm0, hd0, hmf, hrec⟩ :=
    transform_ok_elim ts data rec h
  subst hrec
  rw [hs0] at hs
  injection hs with hs
  subst hs
  refine ⟨?_, ?_, by decide⟩ <;>
  rcases optionalMain_ok_elim data.main mf hmf with ⟨hmn, hmf0⟩ |
    ⟨t, fl, tmin, tmax, hum, pres, hmn, hmf0⟩ <;>
  subst hmf0 <;>
  cases hwind : data.wind <;>
  cases hsr : sys0.sunrise <;>
  cases hss : sys0.sunset <;>
  simp_all [baseFields, windFields, sunFields, getField, optNum]

/-- Witness for C5 at sunrise timestamp 1700000000. -/
theorem C5_sunrise_sunset_witness :
    getField fullRec "sunrise" = some (JValue.s (fmtTimestamp 1700000000)) ∧
    fmtTimestamp 1700000000 = "2023-11-14 22:13:20 UTC" :=
  ⟨((C5_sunrise_sunset 0 fullRaw fullRec fullSys rfl rfl).1 1700000000 1700030000 rfl rfl).1,
   (C5_sunrise_sunset 0 fullRaw fullRec fullSys rfl rfl).2.2⟩

/-- Claim C6: a non-200 provider status is mirrored verbatim — the
handler returns exactly that status with an error body embedding the raw
status and body text, and neither parses nor transforms the body nor
publishes to the sink. -/
theorem C6_upstream_error_mirrors_status (env : HandlerEnv)
    (h1 : truthyOpt env.apiKey = true) (h2 : env.respStatus ≠ 200) :
    lambda_handler env =
      { statusCode := env.respStatus,
        body := Body.err ("Weather API error: Status " ++ toString env.respStatus ++
          ", Response: " ++ env.respBody),
        fetchAttempted := true, parseAttempted := false, transformAttempted := false,
        publishAttempted := false } := by
  simp [lambda_handler, h1, h2]

/-- Witness for C6 at a mocked 404 provider response. -/
theorem C6_upstream_error_witness :
    lambda_handler env404 =
      { statusCode := 404,
        body := Body.err ("Weather API error: Status " ++ toString (404 : ℕ) ++
          ", Response: " ++ "city not found"),
        fetchAttempted := true, parseAttempted := false, transformAttempted := false,
        publishAttempted := false } :=
  C6_upstream_error_mirrors_status env404 rfl (by decide)

/-- Claim C7: when credential resolution yields no key (no secret name
configured and no environment fallback), the handler returns 500 with
the configuration-error body and never attempts the HTTP fetch. -/
theorem C7_no_key_500_no_fetch (env : HandlerEnv) (lk : Except String String)
    (p : String → SecretParse) (h : env.apiKey = get_api_key none lk p none) :
    lambda_handler env =
      { statusCode := 500, body := Body.err (boundaryMsg configErrorMsg),
        fetchAttempted := false, parseAttempted := false, transformAttempted := false,
        publishAttempted := false } := by
  have hk : env.apiKey = none := by simpa [get_api_key, truthyOpt] using h
  simp [lambda_handler, hk, truthyOpt]

/-- Witness for C7 with no secret configured and no environment key. -/
theorem C7_no_key_witness :
    lambda_handler envNoKey =
      { statusCode := 500, body := Body.err (boundaryMsg configErrorMsg),
        fetchAttempted := false, parseAttempted := false, transformAttempted := false,
        publishAttempted := false } :=
  C7_no_key_500_no_fetch envNoKey (Except.error "AccessDenied") (fun _ => SecretParse.notJson) rfl

/-- Claim C8: the transform fails with a missing-field error whenever
the weather array is empty or name, sys or sys.country is absent, and
the single top-level boundary turns any transform failure — and any sink
publish failure — into a 500 whose error body embeds the exception
message. -/
theorem C8_missing_fields_and_boundary :
    (∀ (ts : ℤ) (data : RawObservation),
      (data.weather = some [] ∨ data.name = none ∨ data.sys = none ∨
        (∃ s, data.sys = some s ∧ s.country = none)) →
      ∃ m, transform_weather_data ts data = Except.error m) ∧
    (∀ (env : HandlerEnv) (raw : RawObservation) (m : String),
      truthyOpt env.apiKey = true → env.respStatus = 200 →
      env.parseResult = Except.ok raw → transform_weather_data env.now raw = Except.error m →
      lambda_handler env =
        { statusCode := 500, body := Body.err (boundaryMsg m),
          fetchAttempted := true, parseAttempted := true, transformAttempted := true,
          publishAttempted := false }) ∧
    (∀ (env : HandlerEnv) (raw : RawObservation) (rec : List (String × JValue)) (m : String),
      truthyOpt env.apiKey = true → env.respStatus = 200 →
      env.parseResult = Except.ok raw → transform_weather_data env.now raw = Except.ok rec →
      env.firehoseResult = Except.error m →
      lambda_handler env =
        { statusCode := 500, body := Body.err (boundaryMsg m),
          fetchAttempted := true, parseAttempted := true, transformAttempted := true,
          publishAttempted := true }) := by
  refine ⟨?_, ?_, ?_⟩
  · intro ts data hd
    cases htr : transform_weather_data ts data with
    | error m => exact ⟨m, rfl⟩
    | ok rec =>
      obtain ⟨name, sys, country, w0, wrest, cond, desc, mf, hn, hs, hc, hw, -, -, -, -⟩ :=
        transform_ok_elim ts data rec htr
      rcases hd with h1 | h1 | h1 | ⟨s, hs2, hc2⟩ <;> simp_all
  · intro env raw m h1 h2 h3 h4
    simp [lambda_handler, h1, h2, h3, h4]
  · intro env raw rec m h1 h2 h3 h4 h5
    simp [lambda_handler, h1, h2, h3, h4, h5]

/-- Witness for C8: an empty weather array fails the transform, the
handler converts it to a 500 embedding the message, and a failing sink
publish is likewise converted. -/
theorem C8_missing_fields_witness :
    (∃ m, transform_weather_data 0 malformedRaw = Except.error m) ∧
    lambda_handler envMalformed =
      { statusCode := 500,
        body := Body.err (boundaryMsg "IndexError: list index out of range"),
        fetchAttempted := true, parseAttempted := true, transformAttempted := true,
        publishAttempted := false } ∧
    lambda_handler envSinkFail =
      { statusCode := 500,
        body := Body.err (boundaryMsg "ServiceUnavailable"),
        fetchAttempted := true, parseAttempted := true, transformAttempted := true,
        publishAttempted := true } :=
  ⟨C8_missing_fields_and_boundary.1 0 malformedRaw (Or.inl rfl),
   C8_missing_fields_and_boundary.2.1 envMalformed malformedRaw
     "IndexError: list index out of range" rfl rfl rfl rfl,
   C8_missing_fields_and_boundary.2.2 envSinkFail windMissingSpeedRaw windMissingRec
     "ServiceUnavailable" rfl rfl rfl rfl rfl⟩

/-- Claim C9: credential resolution never raises — no configured secret
name or a failing lookup falls back to the environment value, a secret
that is not JSON is returned whole as the raw key, a secret parsing to a
non-dict value also falls back to the environment, and when neither
source yields a value the resolver returns absent. Totality of
get_api_key is the never-raises property itself. -/
theorem C9_resolver_fallbacks (lk : Except String String) (p : String → SecretParse)
    (envK : Option String) (n s m : String) :
    get_api_key none lk p envK = envK ∧
    get_api_key (some "") lk p envK = envK ∧
    (n ≠ "" → get_api_key (some n) (Except.error m) p envK = envK) ∧
    (n ≠ "" → p s = SecretParse.notJson → get_api_key (some n) (Except.ok s) p envK = some s) ∧
    (n ≠ "" → p s = SecretParse.jsonOther → get_api_key (some n) (Except.ok s) p envK = envK) ∧
    get_api_key none lk p none = none := by
  refine ⟨by simp [get_api_key, truthyOpt], by simp [get_api_key, truthyOpt], ?_, ?_, ?_,
    by simp [get_api_key, truthyOpt]⟩
  · intro hn
    simp [get_api_key, truthyOpt, hn]
  · intro hn hp
    simp [get_api_key, truthyOpt, hn, hp]
  · intro hn hp
    simp [get_api_key, truthyOpt, hn, hp]

/-- Witness for C9: environment fallback, raw-secret passthrough and
absence at concrete inputs. -/
theorem C9_resolver_witness :
    get_api_key none (Except.error "AccessDenied") (fun _ => SecretParse.notJson) (some "envkey") =
      some "envkey" ∧
    get_api_key (some "sec") (Except.error "AccessDenied") (fun _ => SecretParse.notJson)
      (some "envkey") = some "envkey" ∧
    get_api_key (some "sec") (Except.ok "rawkey") (fun _ => SecretParse.notJson) (some "envkey") =
      some "rawkey" ∧
    get_api_key none (Except.error "AccessDenied") (fun _ => SecretParse.notJson) none = none :=
  ⟨(C9_resolver_fallbacks (Except.error "AccessDenied") (fun _ => SecretParse.notJson)
      (some "envkey") "sec" "rawkey" "AccessDenied").1,
   (C9_resolver_fallbacks (Except.error "AccessDenied") (fun _ => SecretParse.notJson)
      (some "envkey") "sec" "rawkey" "AccessDenied").2.2.1 (by decide),
   (C9_resolver_fallbacks (Except.ok "rawkey") (fun _ => SecretParse.notJson)
      (some "envkey") "sec" "rawkey" "AccessDenied").2.2.2.1 (by decide) rfl,
   (C9_resolver_fallbacks (Except.error "AccessDenied") (fun _ => SecretParse.notJson)
      none "sec" "rawkey" "AccessDenied").2.2.2.2.2⟩

/-- Claim C10: a trigger input whose city field is present but empty is
treated exactly like an absent city field — the chain tests truthiness,
not key presence, so resolution falls through to the default city. -/
theorem C10_empty_city_treated_as_absent (denv : Option String)
    (pick : Fin RANDOM_CITIES.length) :
    resolveCity (some "") denv pick = resolveCity none denv pick := by
  simp [resolveCity, truthyOpt]
